import Mathlib

/-!
Verification of the jbundle build-pipeline orchestrator and self-extracting
package format.  The Rust sources under verification are
`src/main.rs` (configuration resolution, stage counting, pipeline driver),
`src/progress.rs` (terminal progress pipeline) and `src/pack/stub.rs`
(launcher-stub generation).  Components that live in repository modules not
included here (`pack/mod.rs`, `jvm.rs`, `config.rs`, `project_config.rs`)
are modelled from the specification and marked as such in their doc comments.
-/

/-! ## Terminal output model (`src/progress.rs`) -/

/-- Output stream of a terminal write.  `src/progress.rs` writes only via
`eprint!` / `eprintln!` and an indicatif `MultiProgress` (which draws on
stderr); `stdout` is part of the model so the stderr-only property is not
vacuous. -/
inductive OutStream
  | stdout
  | stderr
deriving DecidableEq, Repr

/-- One terminal write performed by the progress pipeline.
`stepStart s tty pre name` models `Pipeline::start_step`'s rendering: in tty
mode a spinner whose template shows `pre` and the message `name`
(re-rendered on a steady tick), in non-tty mode the single inline write
`eprint!("{pre} {name}...")`.  `stepFinish s tty result` models
`Pipeline::finish_step`: in tty mode clear-spinner-then
`eprintln!("  ✓ {result}")`, in non-tty mode `eprintln!(" {result}")`.
`rawLine` models a plain `eprintln!` (the blank line at the start of
`run_build` and the closing banner of `Pipeline::finish`). -/
inductive Ev
  | stepStart (s : OutStream) (tty : Bool) (pre : String) (name : String)
  | stepFinish (s : OutStream) (tty : Bool) (result : String)
  | rawLine (s : OutStream) (text : String)
deriving DecidableEq, Repr

/-- The stream an event is written to. -/
def Ev.stream : Ev → OutStream
  | .stepStart s _ _ _ => s
  | .stepFinish s _ _ => s
  | .rawLine s _ => s

/-- State of `progress.rs`'s `Pipeline` struct: total step count, steps
started so far, and the rendering mode chosen at construction.  The
`MultiProgress` handle carries no modelled state. -/
structure Pipeline where
  total : Nat
  current : Nat
  is_tty : Bool
deriving DecidableEq, Repr

/-- `progress.rs`'s `StepHandle`: a spinner (whose template remembers the
prefix and message) or a plain already-written line. -/
inductive StepHandle
  | spinner (pre : String) (name : String)
  | plain
deriving DecidableEq, Repr

/-- `Pipeline::new` (`src/progress.rs` lines 12-19).  `Term::stderr().is_term()`
is an external console query; its value is the `stderr_is_term` parameter. -/
def Pipeline.new (total_steps : Nat) (stderr_is_term : Bool) : Pipeline :=
  { total := total_steps, current := 0, is_tty := stderr_is_term }

/-- `Pipeline::start_step` (`src/progress.rs` lines 21-39): increments the
counter, builds the `[current/total]` prefix and renders it with the step
name, as a spinner in tty mode or an inline `eprint!` otherwise. -/
def Pipeline.start_step (p : Pipeline) (name : String) :
    Pipeline × StepHandle × Ev :=
  let current := p.current + 1
  let pre := "[" ++ toString current ++ "/" ++ toString p.total ++ "]"
  ({ p with current := current },
    if p.is_tty then .spinner pre name else .plain,
    .stepStart .stderr p.is_tty pre name)

/-- Whether a handle is the spinner variant (tty rendering mode). -/
def StepHandle.is_spinner : StepHandle → Bool
  | .spinner _ _ => true
  | .plain => false

/-- `Pipeline::finish_step` (`src/progress.rs` lines 41-51): replaces a
spinner with a static mark plus the result text, or appends the result text
to the already-written inline line (the event's mode flag records which). -/
def Pipeline.finish_step (h : StepHandle) (result : String) : Ev :=
  .stepFinish .stderr h.is_spinner result

/-- `Pipeline::finish` (`src/progress.rs` lines 53-59): the closing banner. -/
def Pipeline.finish (p : Pipeline) (output_path : String) : Ev :=
  .rawLine .stderr
    (if p.is_tty then
      "\n  \x1b[1;32m✓\x1b[0m Binary ready: " ++ output_path ++ "\n"
    else "\nDone: " ++ output_path)

/-! ## Launcher-stub generation (`src/pack/stub.rs`) -/

/-- The stub's `jvm_args_str`: empty for no extra arguments, otherwise a
space followed by the space-joined arguments (`src/pack/stub.rs` lines 2-6). -/
def jvmArgsStr (jvm_args : List String) : String :=
  if jvm_args.isEmpty then "" else " " ++ String.intercalate " " jvm_args

/-- The ASCII-art banner heredoc body of the stub template. -/
def stub_banner : String :=
  "   _ _                    _ _\n" ++
  "  (_) |__  _   _ _ __   __| | | ___\n" ++
  "  | | \x27_ \\| | | | \x27_ \\ / _\x60 | |/ _ \\\n" ++
  "  | | |_) | |_| | | | | (_| | |  __/\n" ++
  " _/ |_.__/ \\__,_|_| |_|\\__,_|_|\\___|\n" ++
  "|__/\n"

/-- Literal template chunk before the `{payload_hash}` placeholder. -/
def stub_chunk0 : String := "#!/bin/sh\nset -e\nCACHE_ID=\""

/-- Literal template chunk between `{payload_hash}` and `{payload_size}`. -/
def stub_chunk1 : String :=
  "\"\nCACHE_DIR=\"$\x7bHOME\x7d/.jbundle/cache/$\x7bCACHE_ID\x7d\"\nPAYLOAD_SIZE="

/-- Literal template chunk between `{payload_size}` and `{jvm_args_str}`. -/
def stub_chunk2 : String :=
  "\n\ncat >&2 <<\x27BANNER\x27\n" ++ stub_banner ++ "BANNER\n\n" ++
  "if [ ! -d \"$CACHE_DIR/runtime\" ]; then\n" ++
  "    mkdir -p \"$CACHE_DIR\"\n" ++
  "    echo \"Extracting runtime (first run)...\" >&2\n" ++
  "    tail -c \"$PAYLOAD_SIZE\" \"$0\" | tar xzf - -C \"$CACHE_DIR\"\n" ++
  "fi\n\n" ++
  "exec \"$CACHE_DIR/runtime/bin/java\""

/-- Literal template chunk after the `{jvm_args_str}` placeholder. -/
def stub_chunk3 : String :=
  " -jar \"$CACHE_DIR/app.jar\" \"$@\"\nexit 0\n# --- PAYLOAD BELOW ---\n"

/-- `stub::generate` (`src/pack/stub.rs` lines 1-35): renders the launcher
shell script from the payload content hash, the exact payload byte count and
the extra JVM arguments.  The Rust `format!` template is the concatenation
of the four literal chunks with the three placeholders spliced in; the
payload size is a `u64` rendered in decimal, modelled as `Nat`. -/
def generate (payload_hash : String) (payload_size : Nat)
    (jvm_args : List String) : String :=
  stub_chunk0 ++ payload_hash ++ stub_chunk1 ++ toString payload_size ++
    stub_chunk2 ++ jvmArgsStr jvm_args ++ stub_chunk3

/-! ## Stage counting (`src/main.rs`) -/

/-- `calculate_steps` (`src/main.rs` lines 162-167). -/
def calculate_steps (is_jar_input : Bool) (shrink : Bool) (crac : Bool) : Nat :=
  let base := if is_jar_input then 1 else 2
  let shrink_step := if shrink then 1 else 0
  let crac_step := if crac then 1 else 0
  base + shrink_step + 4 + crac_step

/-- The stage-count formula exactly as the specification states it
(spec sections 3 and 8):
`total = (1 if prebuilt-archive else 2) + (1 if shrink else 0) + 4 + (1 if checkpoint else 0)`. -/
def stage_count_spec (is_prebuilt_archive : Bool) (shrink : Bool)
    (checkpoint : Bool) : Nat :=
  (if is_prebuilt_archive then 1 else 2) + (if shrink then 1 else 0) + 4 +
    (if checkpoint then 1 else 0)

/-! ## Configuration resolution (`src/main.rs` lines 61-147) -/

/-- Modelled from the spec: the closed target-platform enum of `config.rs`
(not available under `src/`): linux-x64, linux-aarch64, macos-x64,
macos-aarch64. -/
inductive Target
  | linux_x64
  | linux_aarch64
  | macos_x64
  | macos_aarch64
deriving DecidableEq, Repr

/-- Modelled from the spec: `Target::from_str` of `config.rs` (not available
under `src/`), accepting exactly the four platform names used in the CLI
error messages of `src/main.rs`. -/
def Target.from_str : String → Option Target
  | "linux-x64" => some .linux_x64
  | "linux-aarch64" => some .linux_aarch64
  | "macos-x64" => some .macos_x64
  | "macos-aarch64" => some .macos_aarch64
  | _ => none

/-- Modelled from the spec: the project-file configuration shape of
`project_config.rs` (not available under `src/`); the fields and their
optionality are exactly those read by `src/main.rs` lines 72-133. -/
structure ProjectConfig where
  target : Option String
  java_version : Option Nat
  jvm_args : Option (List String)
  shrink : Option Bool
  profile : Option String
  appcds : Option Bool
  crac : Option Bool
  compact_banner : Option Bool
deriving DecidableEq, Repr

/-- Target resolution (`src/main.rs` lines 72-82): a CLI target string is
parsed (with a fatal error on an unknown name); otherwise a project-file
target string is parsed (with a distinct fatal error message); otherwise the
current host platform is used.  `Target::current()` is an external host
query passed in as `current`. -/
def cfg_target (cli : Option String) (project_config : Option ProjectConfig)
    (current : Target) : Except String Target :=
  match cli with
  | some t =>
    match Target.from_str t with
    | some tg => .ok tg
    | none =>
      .error ("invalid target: " ++ t ++
        ". Use: linux-x64, linux-aarch64, macos-x64, macos-aarch64")
  | none =>
    match project_config.bind (fun c => c.target) with
    | some t =>
      match Target.from_str t with
      | some tg => .ok tg
      | none =>
        .error ("invalid target in jbundle.toml: " ++ t ++
          ". Use: linux-x64, linux-aarch64, macos-x64, macos-aarch64")
    | none => .ok current

/-- Whether a runtime version was explicitly requested
(`src/main.rs` lines 84-88). -/
def cfg_java_version_explicit (cli : Option Nat)
    (project_config : Option ProjectConfig) : Bool :=
  cli.isSome || (project_config.bind (fun c => c.java_version)).isSome

/-- Runtime-version resolution (`src/main.rs` lines 89-91):
CLI, else project file, else 21. -/
def cfg_java_version (cli : Option Nat)
    (project_config : Option ProjectConfig) : Nat :=
  (cli.or (project_config.bind (fun c => c.java_version))).getD 21

/-- Extra-JVM-argument resolution (`src/main.rs` lines 93-100): the CLI list
wins when non-empty, else the project-file list, else empty. -/
def cfg_jvm_args (cli : List String)
    (project_config : Option ProjectConfig) : List String :=
  if cli.isEmpty then (project_config.bind (fun c => c.jvm_args)).getD []
  else cli

/-- Shrink-flag resolution (`src/main.rs` lines 102-106): CLI flag OR
project-file value (defaulting to false). -/
def cfg_shrink (cli : Bool) (project_config : Option ProjectConfig) : Bool :=
  cli || (project_config.bind (fun c => c.shrink)).getD false

/-- Profile-string resolution (`src/main.rs` lines 108-110):
CLI, else project file, else "server". -/
def cfg_profile_str (cli : Option String)
    (project_config : Option ProjectConfig) : String :=
  (cli.or (project_config.bind (fun c => c.profile))).getD "server"

/-- Class-data-sharing resolution (`src/main.rs` lines 114-121): an explicit
`--no-appcds` always yields false; otherwise the project-file value,
defaulting to true. -/
def cfg_appcds (no_appcds : Bool)
    (project_config : Option ProjectConfig) : Bool :=
  if no_appcds then false
  else (project_config.bind (fun c => c.appcds)).getD true

/-- Checkpoint-flag resolution (`src/main.rs` lines 123-127): CLI flag OR
project-file value (defaulting to false). -/
def cfg_crac (cli : Bool) (project_config : Option ProjectConfig) : Bool :=
  cli || (project_config.bind (fun c => c.crac)).getD false

/-- Compact-banner resolution (`src/main.rs` lines 129-133): CLI flag OR
project-file value (defaulting to false). -/
def cfg_compact_banner (cli : Bool)
    (project_config : Option ProjectConfig) : Bool :=
  cli || (project_config.bind (fun c => c.compact_banner)).getD false

/-! ## The build pipeline (`src/main.rs` lines 169-288) -/

/-- Modelled from the spec: the `BuildConfig` struct of `config.rs` (not
available under `src/`); the fields are exactly those constructed in
`src/main.rs` lines 135-147 and read by `run_build`.  Paths are strings in
their display form; `input_ext` is the result of the std-library query
`config.input.extension()` (mapped to a string), and the profile is kept as
its resolved name string. -/
structure BuildConfig where
  input : String
  input_ext : Option String
  output : String
  java_version : Nat
  java_version_explicit : Bool
  target : Target
  jvm_args : List String
  shrink : Bool
  profile_str : String
  appcds : Bool
  crac : Bool
  compact_banner : Bool

/-- The prebuilt-archive test of `run_build` (`src/main.rs` line 170):
`config.input.extension().is_some_and(|e| e == "jar")`. -/
def BuildConfig.is_jar_input (cfg : BuildConfig) : Bool :=
  match cfg.input_ext with
  | some e => e == "jar"
  | none => false

/-- The shrink result struct of `shrink.rs` (not available under `src/`);
fields are exactly those read in `src/main.rs` lines 200-216. -/
structure ShrinkResult where
  original_size : Nat
  shrunk_size : Nat
  jar_path : String
deriving DecidableEq, Repr

/-- Outcomes of the external calls made by `run_build`, plus the external
formatters it uses for progress messages.  Each field is the result of the
corresponding call: `detect_res` is `detect::detect_build_system` (already
Debug-formatted), `build_desc` is `build::build_command_description`,
`build_res` is `build::build_uberjar` (the jar path), `shrink_res` is
`shrink::shrink_jar`, `validate_res` is `validate::resolve_java_version`,
`ensure_jdk_res` is `jvm::ensure_jdk`, `tempdir_res` is
`tempfile::tempdir()`, `detect_modules_res` is `jlink::detect_modules`,
`create_runtime_res` is `jlink::create_runtime`, `create_checkpoint_res` is
`crac::create_checkpoint`, `pack_res` is `pack::create_binary`,
`metadata_len` is `std::fs::metadata(path)?.len()`, `hb` is indicatif's
`HumanBytes` display, `pct_fmt` is the f64 percentage formatting of
`src/main.rs` line 203 (floating-point text, kept abstract), and
`file_name_of` is `Path::file_name().unwrap_or_default().to_string_lossy()`.
`is_tty` is `Term::stderr().is_term()`. -/
structure ExtCalls where
  is_tty : Bool
  detect_res : Except String String
  build_desc : String
  build_res : Except String String
  shrink_res : Except String ShrinkResult
  validate_res : Except String Nat
  ensure_jdk_res : Except String String
  tempdir_res : Except String String
  detect_modules_res : Except String String
  create_runtime_res : Except String String
  create_checkpoint_res : Except String String
  pack_res : Except String Unit
  metadata_len : String → Except String Nat
  hb : Nat → String
  pct_fmt : Nat → Nat → String
  file_name_of : String → String

/-- Number of pieces produced by splitting a string at every comma, as
`modules.split(',').count()` computes it in `src/main.rs` line 238: one
more than the number of comma characters (empty pieces included). -/
def commaPieceCount (s : String) : Nat :=
  s.data.count ',' + 1

/-- Prepends one terminal event to a pipeline outcome. -/
def emit (e : Ev) (p : List Ev × Except String Unit) :
    List Ev × Except String Unit :=
  (e :: p.1, p.2)

/-- The outcome of a `?`-propagated fatal error: the run aborts with no
further terminal output and a non-zero (error) result. -/
def abortWith (e : String) : List Ev × Except String Unit :=
  ([], .error e)

/-- Packing stage (`src/main.rs` lines 266-285): start "Packing binary",
call `pack::create_binary`, stat the output file, report the output path and
size, then print the closing banner.  `jar_path`, `runtime_path` and
`crac_path` feed `PackOptions` and do not otherwise affect control flow. -/
def pack_stage (cfg : BuildConfig) (x : ExtCalls) (p : Pipeline)
    (_jar_path _runtime_path : String) (_crac_path : Option String) :
    List Ev × Except String Unit :=
  let (p, h, ev) := p.start_step "Packing binary"
  emit ev <|
    match x.pack_res with
    | .error e => abortWith e
    | .ok _ =>
      match x.metadata_len cfg.output with
      | .error e => abortWith e
      | .ok size =>
        ([Pipeline.finish_step h (cfg.output ++ " (" ++ x.hb size ++ ")"),
          p.finish cfg.output], .ok ())

/-- CRaC checkpoint stage (`src/main.rs` lines 246-262), run only when the
checkpoint flag is set: a `crac::create_checkpoint` error is caught locally
and reported as "skipped (<reason>)" before continuing to packing without
checkpoint data; on success the checkpoint file is stat-ed (a fatal `?`) and
its size reported. -/
def crac_stage (cfg : BuildConfig) (x : ExtCalls) (p : Pipeline)
    (jar_path runtime_path : String) : List Ev × Except String Unit :=
  if cfg.crac then
    let (p, h, ev) := p.start_step "Creating CRaC checkpoint"
    emit ev <|
      match x.create_checkpoint_res with
      | .ok cp =>
        match x.metadata_len cp with
        | .error e => abortWith e
        | .ok cp_size =>
          emit (Pipeline.finish_step h (x.hb cp_size ++ " checkpoint"))
            (pack_stage cfg x p jar_path runtime_path (some cp))
      | .error e =>
        emit (Pipeline.finish_step h ("skipped (" ++ e ++ ")"))
          (pack_stage cfg x p jar_path runtime_path none)
  else pack_stage cfg x p jar_path runtime_path none

/-- Minimal-runtime stage (`src/main.rs` lines 241-244). -/
def runtime_stage (cfg : BuildConfig) (x : ExtCalls) (p : Pipeline)
    (jar_path : String) : List Ev × Except String Unit :=
  let (p, h, ev) := p.start_step "Creating minimal runtime (jlink)"
  emit ev <|
    match x.create_runtime_res with
    | .error e => abortWith e
    | .ok runtime_path =>
      emit (Pipeline.finish_step h "done")
        (crac_stage cfg x p jar_path runtime_path)

/-- Module-analysis stage (`src/main.rs` lines 234-239): after the step
starts, the scoped temp directory is created (a fatal `?`) and
`jlink::detect_modules` is called; the reported count is the number of
comma-separated entries. -/
def modules_stage (cfg : BuildConfig) (x : ExtCalls) (p : Pipeline)
    (jar_path : String) : List Ev × Except String Unit :=
  let (p, h, ev) := p.start_step "Analyzing module dependencies"
  emit ev <|
    match x.tempdir_res with
    | .error e => abortWith e
    | .ok _ =>
      match x.detect_modules_res with
      | .error e => abortWith e
      | .ok modules =>
        let module_count := commaPieceCount modules
        emit (Pipeline.finish_step h (toString module_count ++ " modules"))
          (runtime_stage cfg x p jar_path)

/-- JDK-acquisition stage (`src/main.rs` lines 229-232). -/
def jdk_stage (cfg : BuildConfig) (x : ExtCalls) (p : Pipeline)
    (jar_path : String) (java_version : Nat) : List Ev × Except String Unit :=
  let (p, h, ev) := p.start_step ("Downloading JDK " ++ toString java_version)
  emit ev <|
    match x.ensure_jdk_res with
    | .error e => abortWith e
    | .ok _ =>
      emit (Pipeline.finish_step h "ready") (modules_stage cfg x p jar_path)

/-- Inline Java-version validation (`src/main.rs` lines 221-227): fallible,
fatal, and rendered with no pipeline step of its own. -/
def validate_step (cfg : BuildConfig) (x : ExtCalls) (p : Pipeline)
    (jar_path : String) : List Ev × Except String Unit :=
  match x.validate_res with
  | .error e => abortWith e
  | .ok java_version => jdk_stage cfg x p jar_path java_version

/-- Optional shrink stage (`src/main.rs` lines 197-219): fatal on error; on
success the result message depends on whether the size was reduced, and the
(possibly replaced) jar path flows onward. -/
def shrink_stage (cfg : BuildConfig) (x : ExtCalls) (p : Pipeline)
    (jar_path : String) : List Ev × Except String Unit :=
  if cfg.shrink then
    let (p, h, ev) := p.start_step "Shrinking JAR"
    emit ev <|
      match x.shrink_res with
      | .error e => abortWith e
      | .ok result =>
        emit (Pipeline.finish_step h
          (if result.shrunk_size < result.original_size then
            x.hb result.original_size ++ " -> " ++ x.hb result.shrunk_size ++
              " (-" ++ x.pct_fmt result.original_size result.shrunk_size ++ "%)"
          else "no reduction (using original)"))
          (validate_step cfg x p result.jar_path)
  else validate_step cfg x p jar_path

/-- Archive-acquisition stage(s) (`src/main.rs` lines 176-195): one step for
a prebuilt jar, or the detect-and-build pair for a project directory. -/
def acquire_stage (cfg : BuildConfig) (x : ExtCalls) (p : Pipeline) :
    List Ev × Except String Unit :=
  if cfg.is_jar_input then
    let (p, h, ev) := p.start_step "Using pre-built JAR"
    emit ev <|
      emit (Pipeline.finish_step h ("JAR: " ++ cfg.input))
        (shrink_stage cfg x p cfg.input)
  else
    let (p, h, ev) := p.start_step "Detecting build system"
    emit ev <|
      match x.detect_res with
      | .error e => abortWith e
      | .ok system =>
        let (p, h2, ev2) :=
          p.start_step ("Building uberjar (" ++ x.build_desc ++ ")")
        emit (Pipeline.finish_step h system) <| emit ev2 <|
          match x.build_res with
          | .error e => abortWith e
          | .ok jar =>
            emit (Pipeline.finish_step h2 (x.file_name_of jar))
              (shrink_stage cfg x p jar)

/-- `run_build` (`src/main.rs` lines 169-288): compute the fixed stage total
before any stage runs, construct the pipeline, print the leading blank line
and drive the stages in order.  The returned event list is every terminal
write, in order; the returned `Except` is the process outcome (`.error`
propagates to a non-zero exit through `main`). -/
def run_build (cfg : BuildConfig) (x : ExtCalls) :
    List Ev × Except String Unit :=
  let total_steps := calculate_steps cfg.is_jar_input cfg.shrink cfg.crac
  let p := Pipeline.new total_steps x.is_tty
  emit (.rawLine .stderr "") (acquire_stage cfg x p)

/-- Names of the stages started in a terminal-event trace, in order. -/
def startedStages (evs : List Ev) : List String :=
  evs.filterMap fun e =>
    match e with
    | .stepStart _ _ _ name => some name
    | _ => none

/-- `[current/total]` prefixes of the stages started in a trace, in order. -/
def startPrefixes (evs : List Ev) : List String :=
  evs.filterMap fun e =>
    match e with
    | .stepStart _ _ pre _ => some pre
    | _ => none

/-- Result texts of the `finish_step` calls in a trace, in order. -/
def finishTexts (evs : List Ev) : List String :=
  evs.filterMap fun e =>
    match e with
    | .stepFinish _ _ result => some result
    | _ => none

/-! ## Package assembly and the launcher contract (`src/pack/stub.rs`) -/

/-- Bytes of a string under the fixed UTF-8 encoding in which the stub text
is written. -/
def strBytes (s : String) : List UInt8 :=
  s.toUTF8.toList

/-- Modelled from the spec: the final assembly step of `pack::create_binary`
(`src/pack/mod.rs` is not available; spec section 4.5 steps 2-4): the output
file is exactly the stub bytes followed by the payload bytes, where the stub
is rendered by `stub::generate` from the payload's content identifier, the
exact payload byte length, and the extra runtime arguments. -/
def create_binary (payload_hash : String) (payload : List UInt8)
    (jvm_args : List String) : List UInt8 :=
  strBytes (generate payload_hash payload.length jvm_args) ++ payload

/-- Last `n` bytes of a file, as read by `tail -c n` (the whole file when
`n` is at least its length). -/
def tailBytes (n : Nat) (file : List UInt8) : List UInt8 :=
  file.drop (file.length - n)

/-- One observable action of the generated launcher script. -/
inductive LaunchAction
  | banner
  | mkdirCacheDir
  | extractPayload (bytes : List UInt8)
  | execJava (jvm_args : List String) (forwarded : List String)
deriving DecidableEq

/-- Shallow embedding of the control flow of the launcher script rendered by
`generate` (`src/pack/stub.rs` lines 9-33): print the banner; if the
populated marker `$CACHE_DIR/runtime` is absent (`cached` is the result of
that directory test), create the keyed cache directory and unpack exactly
the last `payload_size` bytes of the currently executing file into it; then
replace the process with the cached runtime's `java`, passing the embedded
extra arguments, `-jar "$CACHE_DIR/app.jar"`, and the forwarded invocation
arguments.  The trailing `exit 0` is unreachable after `exec`. -/
def launcher_run (cached : Bool) (self_bytes : List UInt8)
    (payload_size : Nat) (jvm_args forwarded : List String) :
    List LaunchAction :=
  [.banner] ++
    (if cached then []
     else [.mkdirCacheDir, .extractPayload (tailBytes payload_size self_bytes)]) ++
    [.execJava jvm_args forwarded]

/-! ## Cache-population atomicity models -/

/-- One filesystem step of the launcher's first-run extraction
(`src/pack/stub.rs` lines 24-28): the `mkdir -p` of the keyed cache
directory, then `tar` materialising one archive entry at a time. -/
inductive ExtractStep
  | mkdirCacheDir
  | untarEntry (entry : String)
deriving DecidableEq

/-- The population step sequence of a launcher-side cache entry: `mkdir -p`
followed by `tar xzf - -C "$CACHE_DIR"` extracting each payload entry, in
order, directly into the keyed cache directory (no temporary location, no
atomic promote). -/
def launcher_populate (payload_entries : List String) : List ExtractStep :=
  .mkdirCacheDir :: payload_entries.map .untarEntry

/-- Entries present inside the keyed cache directory after executing a list
of extraction steps on an initially absent entry. -/
def extractExec (steps : List ExtractStep) : List String :=
  steps.filterMap fun s =>
    match s with
    | .mkdirCacheDir => none
    | .untarEntry e => some e

/-- The designated populated-marker test: the `runtime` subdirectory exists
inside the keyed path (the `[ ! -d "$CACHE_DIR/runtime" ]` check of the
stub, negated). -/
def markerExists (fs : List String) : Bool :=
  fs.contains "runtime"

/-- A cache entry is fully populated when every payload entry is present. -/
def fullyPopulated (fs : List String) (payload_entries : List String) : Bool :=
  payload_entries.all fs.contains

/-- One step of runtime-acquisition cache population.  Modelled from the
spec (section 4.3; `src/jvm.rs` is not available): materialisation writes
into a private temporary location, and a single atomic rename promotes the
whole temporary tree into the keyed location. -/
inductive JdkPopStep
  | writeTemp (entry : String)
  | promote
deriving DecidableEq

/-- State of one keyed runtime-acquisition cache entry during population:
the private temporary tree and the final keyed directory. -/
structure JdkCacheState where
  temp : List String
  keyed : List String
deriving DecidableEq, Repr

/-- Effect of one population step.  `promote` is the atomic rename: the
keyed directory receives the entire temporary tree in one step. -/
def jdkStepExec (st : JdkCacheState) : JdkPopStep → JdkCacheState
  | .writeTemp e => { st with temp := st.temp ++ [e] }
  | .promote => { temp := [], keyed := st.temp }

/-- Execute population steps on an initially absent entry. -/
def jdkExec (steps : List JdkPopStep) : JdkCacheState :=
  steps.foldl jdkStepExec { temp := [], keyed := [] }

/-- Modelled from the spec: the population sequence of a runtime-acquisition
cache entry (section 4.3) — write every entry of the distribution into the
temporary location, then promote atomically. -/
def jdk_populate (entries : List String) : List JdkPopStep :=
  entries.map .writeTemp ++ [.promote]

/-! ## Substring machinery for the stub text -/

set_option maxRecDepth 8192

/-- The string `s` contains `sub` as a contiguous substring. -/
def containsSub (s sub : String) : Prop :=
  ∃ pre post : String, s = pre ++ sub ++ post

/-- The heredoc body and extraction block of the stub, between the blank
line after `PAYLOAD_SIZE` and the `exec` keyword. -/
def stub_body : String :=
  "\ncat >&2 <<\x27BANNER\x27\n" ++ stub_banner ++ "BANNER\n\n" ++
  "if [ ! -d \"$CACHE_DIR/runtime\" ]; then\n" ++
  "    mkdir -p \"$CACHE_DIR\"\n" ++
  "    echo \"Extracting runtime (first run)...\" >&2\n" ++
  "    tail -c \"$PAYLOAD_SIZE\" \"$0\" | tar xzf - -C \"$CACHE_DIR\"\n" ++
  "fi\n\n"

theorem stub_chunk0_split :
    stub_chunk0 = "#!/bin/sh\n" ++ "set -e\n" ++ "CACHE_ID=\"" := by decide

theorem stub_chunk1_split :
    stub_chunk1 = "\"" ++
      "\nCACHE_DIR=\"$\x7bHOME\x7d/.jbundle/cache/$\x7bCACHE_ID\x7d\"\n" ++
      "PAYLOAD_SIZE=" := by decide

theorem stub_chunk2_split :
    stub_chunk2 = "\n" ++ stub_body ++ "exec \"$CACHE_DIR/runtime/bin/java\"" := by
  decide

theorem stub_chunk3_split :
    stub_chunk3 = " -jar \"$CACHE_DIR/app.jar\"" ++
      (" \"$@\"\nexit 0\n" ++ "# --- PAYLOAD BELOW ---\n") := by decide

theorem jvmArgsStr_nil : jvmArgsStr [] = "" := rfl

theorem jvmArgsStr_nonempty (jvm_args : List String) (h : jvm_args ≠ []) :
    jvmArgsStr jvm_args = " " ++ String.intercalate " " jvm_args := by
  simp [jvmArgsStr, h]

/-! ## Claim theorems -/

/-- C3: `calculate_steps` equals the specification's stage-count formula
`(1 if prebuilt-archive else 2) + (1 if shrink else 0) + 4 + (1 if checkpoint else 0)`
on all 8 boolean combinations; in particular a prebuilt archive with
shrink and checkpoint off gives 5, and a project input with shrink and
checkpoint on gives 8. -/
theorem calculate_steps_correct :
    (∀ (is_jar : Bool) (shrink : Bool) (crac : Bool),
      calculate_steps is_jar shrink crac = stage_count_spec is_jar shrink crac) ∧
    calculate_steps true false false = 5 ∧
    calculate_steps false true true = 8 := by
  refine ⟨by decide, rfl, rfl⟩

/-- C2: for every content identifier, payload length and extra-argument
list, the rendered stub starts with the shell shebang line, contains
`CACHE_ID="<identifier>"` verbatim, contains `PAYLOAD_SIZE=<length>`
verbatim, places the space-joined extra arguments between the runtime
binary invocation and the `-jar` application-archive argument, and ends
with the payload marker line. -/
theorem generate_stub_format (payload_hash : String) (payload_size : Nat)
    (jvm_args : List String) :
    (∃ rest : String,
      generate payload_hash payload_size jvm_args = "#!/bin/sh\n" ++ rest) ∧
    containsSub (generate payload_hash payload_size jvm_args)
      ("CACHE_ID=\"" ++ payload_hash ++ "\"") ∧
    containsSub (generate payload_hash payload_size jvm_args)
      ("PAYLOAD_SIZE=" ++ toString payload_size ++ "\n") ∧
    (jvm_args ≠ [] → containsSub (generate payload_hash payload_size jvm_args)
      ("exec \"$CACHE_DIR/runtime/bin/java\" " ++
        String.intercalate " " jvm_args ++ " -jar \"$CACHE_DIR/app.jar\"")) ∧
    (jvm_args = [] → containsSub (generate payload_hash payload_size jvm_args)
      "exec \"$CACHE_DIR/runtime/bin/java\" -jar \"$CACHE_DIR/app.jar\"") ∧
    (∃ pre : String,
      generate payload_hash payload_size jvm_args =
        pre ++ "# --- PAYLOAD BELOW ---\n") := by
  refine ⟨?_, ?_, ?_, ?_, ?_, ?_⟩
  · refine ⟨"set -e\n" ++ ("CACHE_ID=\"" ++ (payload_hash ++ (stub_chunk1 ++
      (toString payload_size ++ (stub_chunk2 ++
        (jvmArgsStr jvm_args ++ stub_chunk3)))))), ?_⟩
    simp only [generate, stub_chunk0_split, String.append_assoc]
  · refine ⟨"#!/bin/sh\n" ++ "set -e\n",
      "\nCACHE_DIR=\"$\x7bHOME\x7d/.jbundle/cache/$\x7bCACHE_ID\x7d\"\n" ++
        ("PAYLOAD_SIZE=" ++ (toString payload_size ++ (stub_chunk2 ++
          (jvmArgsStr jvm_args ++ stub_chunk3)))), ?_⟩
    simp only [generate, stub_chunk0_split, stub_chunk1_split,
      String.append_assoc]
  · refine ⟨stub_chunk0 ++ (payload_hash ++ ("\"" ++
      "\nCACHE_DIR=\"$\x7bHOME\x7d/.jbundle/cache/$\x7bCACHE_ID\x7d\"\n")),
      stub_body ++ ("exec \"$CACHE_DIR/runtime/bin/java\"" ++
        (jvmArgsStr jvm_args ++ stub_chunk3)), ?_⟩
    simp only [generate, stub_chunk1_split, stub_chunk2_split,
      String.append_assoc]
  · intro hne
    have hsp : ("exec \"$CACHE_DIR/runtime/bin/java\" " : String) =
        "exec \"$CACHE_DIR/runtime/bin/java\"" ++ " " := by decide
    refine ⟨stub_chunk0 ++ (payload_hash ++ (stub_chunk1 ++
      (toString payload_size ++ ("\n" ++ stub_body)))),
      " \"$@\"\nexit 0\n" ++ "# --- PAYLOAD BELOW ---\n", ?_⟩
    simp only [generate, stub_chunk2_split, stub_chunk3_split,
      jvmArgsStr_nonempty jvm_args hne, hsp, String.append_assoc]
  · intro he
    have hsub : ("exec \"$CACHE_DIR/runtime/bin/java\" -jar \"$CACHE_DIR/app.jar\"" : String) =
        "exec \"$CACHE_DIR/runtime/bin/java\"" ++ " -jar \"$CACHE_DIR/app.jar\"" := by
      decide
    refine ⟨stub_chunk0 ++ (payload_hash ++ (stub_chunk1 ++
      (toString payload_size ++ ("\n" ++ stub_body)))),
      " \"$@\"\nexit 0\n" ++ "# --- PAYLOAD BELOW ---\n", ?_⟩
    simp only [he, generate, stub_chunk2_split, stub_chunk3_split, hsub,
      jvmArgsStr_nil, String.append_assoc, String.append_empty,
      String.empty_append]
  · refine ⟨stub_chunk0 ++ (payload_hash ++ (stub_chunk1 ++
      (toString payload_size ++ (stub_chunk2 ++ (jvmArgsStr jvm_args ++
        (" -jar \"$CACHE_DIR/app.jar\"" ++ " \"$@\"\nexit 0\n")))))), ?_⟩
    simp only [generate, stub_chunk3_split, String.append_assoc]

/-- C2 witness: the argument-placement conjuncts of `generate_stub_format`
instantiated at concrete inputs. -/
theorem generate_stub_format_witness :
    (["-Xmx512m", "-Dapp.env=prod"] : List String) ≠ [] ∧
    containsSub (generate "abc" 100 ["-Xmx512m", "-Dapp.env=prod"])
      ("exec \"$CACHE_DIR/runtime/bin/java\" " ++
        String.intercalate " " ["-Xmx512m", "-Dapp.env=prod"] ++
        " -jar \"$CACHE_DIR/app.jar\"") ∧
    containsSub (generate "abc" 100 [])
      "exec \"$CACHE_DIR/runtime/bin/java\" -jar \"$CACHE_DIR/app.jar\"" :=
  ⟨by decide,
    (generate_stub_format "abc" 100 ["-Xmx512m", "-Dapp.env=prod"]).2.2.2.1
      (by decide),
    (generate_stub_format "abc" 100 []).2.2.2.2.1 rfl⟩

/-- C1: an artifact assembled by the package builder is exactly the stub
bytes followed by the payload bytes (so its length is their sum with no
extraneous bytes), its trailing `len(P)` bytes are identical to the payload,
and the `PAYLOAD_SIZE` value embedded in the stub text is exactly `len(P)`. -/
theorem create_binary_trailing_payload (payload_hash : String)
    (payload : List UInt8) (jvm_args : List String) :
    create_binary payload_hash payload jvm_args =
      strBytes (generate payload_hash payload.length jvm_args) ++ payload ∧
    (create_binary payload_hash payload jvm_args).length =
      (strBytes (generate payload_hash payload.length jvm_args)).length +
        payload.length ∧
    tailBytes payload.length (create_binary payload_hash payload jvm_args) =
      payload ∧
    containsSub (generate payload_hash payload.length jvm_args)
      ("PAYLOAD_SIZE=" ++ toString payload.length ++ "\n") := by
  refine ⟨rfl, by simp [create_binary], ?_, ?_⟩
  · simp [tailBytes, create_binary, Nat.add_sub_cancel, List.drop_left]
  · refine ⟨stub_chunk0 ++ (payload_hash ++ ("\"" ++
      "\nCACHE_DIR=\"$\x7bHOME\x7d/.jbundle/cache/$\x7bCACHE_ID\x7d\"\n")),
      stub_body ++ ("exec \"$CACHE_DIR/runtime/bin/java\"" ++
        (jvmArgsStr jvm_args ++ stub_chunk3)), ?_⟩
    simp only [generate, stub_chunk1_split, stub_chunk2_split,
      String.append_assoc]

/-- C10: the rendered stub is a function of exactly the content identifier,
payload size and extra-argument list (equal inputs give byte-identical
output), and with an empty argument list the whole tail of the script from
the `exec` keyword on is the literal below, with exactly one space between
the runtime binary path and `-jar` and no residual separator. -/
theorem generate_deterministic_single_space :
    (∀ (h₁ h₂ : String) (n₁ n₂ : Nat) (a₁ a₂ : List String),
      h₁ = h₂ → n₁ = n₂ → a₁ = a₂ → generate h₁ n₁ a₁ = generate h₂ n₂ a₂) ∧
    jvmArgsStr [] = "" ∧
    (∀ (payload_hash : String) (payload_size : Nat), ∃ pre : String,
      generate payload_hash payload_size [] = pre ++
        "exec \"$CACHE_DIR/runtime/bin/java\" -jar \"$CACHE_DIR/app.jar\" \"$@\"\nexit 0\n# --- PAYLOAD BELOW ---\n") := by
  refine ⟨fun h₁ h₂ n₁ n₂ a₁ a₂ e₁ e₂ e₃ => by rw [e₁, e₂, e₃], rfl, ?_⟩
  intro payload_hash payload_size
  have htail : ("exec \"$CACHE_DIR/runtime/bin/java\" -jar \"$CACHE_DIR/app.jar\" \"$@\"\nexit 0\n# --- PAYLOAD BELOW ---\n" : String) =
      "exec \"$CACHE_DIR/runtime/bin/java\"" ++ stub_chunk3 := by decide
  refine ⟨stub_chunk0 ++ (payload_hash ++ (stub_chunk1 ++
    (toString payload_size ++ ("\n" ++ stub_body)))), ?_⟩
  simp only [generate, stub_chunk2_split, htail, jvmArgsStr_nil,
    String.append_assoc, String.append_empty, String.empty_append]

/-- C10 witness: determinism applied at a concrete input. -/
theorem generate_deterministic_single_space_witness :
    generate "cafebabe" 64 ["-Xms64m"] = generate "cafebabe" 64 ["-Xms64m"] :=
  generate_deterministic_single_space.1 "cafebabe" "cafebabe" 64 64
    ["-Xms64m"] ["-Xms64m"] rfl rfl rfl

/-- C5: configuration precedence — a supplied CLI value overrides the
project-file value, which overrides the fixed default (version 21, profile
"server", class-data-sharing enabled, target = current host platform); the
boolean enable flags shrink / checkpoint / compact-banner resolve to true
iff the CLI flag or the project-file value is true; and an explicit
`--no-appcds` yields false regardless of the project file. -/
theorem config_precedence :
    (∀ (v : Nat) (pc : Option ProjectConfig), cfg_java_version (some v) pc = v) ∧
    (∀ c : ProjectConfig,
      cfg_java_version none (some c) = c.java_version.getD 21) ∧
    cfg_java_version none none = 21 ∧
    (∀ (a : String) (rest : List String) (pc : Option ProjectConfig),
      cfg_jvm_args (a :: rest) pc = a :: rest) ∧
    (∀ c : ProjectConfig, cfg_jvm_args [] (some c) = c.jvm_args.getD []) ∧
    cfg_jvm_args [] none = [] ∧
    (∀ (s : String) (pc : Option ProjectConfig),
      cfg_profile_str (some s) pc = s) ∧
    (∀ c : ProjectConfig,
      cfg_profile_str none (some c) = c.profile.getD "server") ∧
    cfg_profile_str none none = "server" ∧
    (∀ (b : Bool) (pc : Option ProjectConfig),
      cfg_shrink b pc = true ↔
        b = true ∨ pc.bind (fun c => c.shrink) = some true) ∧
    (∀ (b : Bool) (pc : Option ProjectConfig),
      cfg_crac b pc = true ↔
        b = true ∨ pc.bind (fun c => c.crac) = some true) ∧
    (∀ (b : Bool) (pc : Option ProjectConfig),
      cfg_compact_banner b pc = true ↔
        b = true ∨ pc.bind (fun c => c.compact_banner) = some true) ∧
    (∀ pc : Option ProjectConfig, cfg_appcds true pc = false) ∧
    (∀ c : ProjectConfig, cfg_appcds false (some c) = c.appcds.getD true) ∧
    cfg_appcds false none = true ∧
    (∀ (t : String) (p₁ p₂ : Option ProjectConfig) (current : Target),
      cfg_target (some t) p₁ current = cfg_target (some t) p₂ current) ∧
    (∀ (c : ProjectConfig) (current : Target) (s : String) (tg : Target),
      c.target = some s → Target.from_str s = some tg →
      cfg_target none (some c) current = .ok tg) ∧
    (∀ current : Target, cfg_target none none current = .ok current) := by
  refine ⟨fun v pc => by simp [cfg_java_version],
    fun c => by cases hc : c.java_version <;> simp [cfg_java_version, hc],
    rfl,
    fun a rest pc => by simp [cfg_jvm_args],
    fun c => by cases hc : c.jvm_args <;> simp [cfg_jvm_args, hc],
    rfl,
    fun s pc => by simp [cfg_profile_str],
    fun c => by cases hc : c.profile <;> simp [cfg_profile_str, hc],
    rfl,
    ?_, ?_, ?_,
    fun pc => by simp [cfg_appcds],
    fun c => by cases hc : c.appcds <;> simp [cfg_appcds, hc],
    rfl,
    fun t p₁ p₂ current => rfl,
    ?_,
    fun current => rfl⟩
  · intro b pc
    cases pc with
    | none => simp [cfg_shrink]
    | some c =>
      cases hc : c.shrink with
      | none => simp [cfg_shrink, hc]
      | some bb => cases bb <;> simp [cfg_shrink, hc]
  · intro b pc
    cases pc with
    | none => simp [cfg_crac]
    | some c =>
      cases hc : c.crac with
      | none => simp [cfg_crac, hc]
      | some bb => cases bb <;> simp [cfg_crac, hc]
  · intro b pc
    cases pc with
    | none => simp [cfg_compact_banner]
    | some c =>
      cases hc : c.compact_banner with
      | none => simp [cfg_compact_banner, hc]
      | some bb => cases bb <;> simp [cfg_compact_banner, hc]
  · intro c current s tg h1 h2
    simp [cfg_target, h1, h2]

/-- C5 witness: the precedence conclusions instantiated at concrete inputs,
discharging the hypotheses of the project-target conjunct. -/
theorem config_precedence_witness :
    ({ target := some "linux-x64", java_version := none, jvm_args := none,
       shrink := none, profile := none, appcds := none, crac := none,
       compact_banner := none : ProjectConfig }.target = some "linux-x64") ∧
    Target.from_str "linux-x64" = some .linux_x64 ∧
    cfg_target none
      (some { target := some "linux-x64", java_version := none,
              jvm_args := none, shrink := none, profile := none,
              appcds := none, crac := none, compact_banner := none })
      .macos_aarch64 = .ok .linux_x64 :=
  ⟨rfl, rfl,
    config_precedence.2.2.2.2.2.2.2.2.2.2.2.2.2.2.2.2.1
      { target := some "linux-x64", java_version := none, jvm_args := none,
        shrink := none, profile := none, appcds := none, crac := none,
        compact_banner := none }
      .macos_aarch64 "linux-x64" .linux_x64 rfl rfl⟩

/-- C7: a launcher invocation follows exactly one of two paths — cached
(banner then launch) or uncached (banner, create the keyed directory,
unpack exactly the last `payload_size` bytes of its own file, then launch) —
it executes the runtime exactly once (no loop, no retry), and on a
well-formed artifact the uncached path extracts bytes identical to the
packed payload. -/
theorem launcher_two_paths :
    (∀ (cached : Bool) (self_bytes : List UInt8) (payload_size : Nat)
        (jvm_args forwarded : List String),
      launcher_run cached self_bytes payload_size jvm_args forwarded =
        if cached then [.banner, .execJava jvm_args forwarded]
        else [.banner, .mkdirCacheDir,
          .extractPayload (tailBytes payload_size self_bytes),
          .execJava jvm_args forwarded]) ∧
    (∀ (cached : Bool) (self_bytes : List UInt8) (payload_size : Nat)
        (jvm_args forwarded : List String),
      (launcher_run cached self_bytes payload_size jvm_args forwarded).countP
        (fun a => match a with | .execJava _ _ => true | _ => false) = 1) ∧
    (∀ (payload_hash : String) (payload : List UInt8)
        (jvm_args forwarded : List String),
      launcher_run false (create_binary payload_hash payload jvm_args)
          payload.length jvm_args forwarded =
        [.banner, .mkdirCacheDir, .extractPayload payload,
          .execJava jvm_args forwarded]) := by
  refine ⟨?_, ?_, ?_⟩
  · intro cached self_bytes payload_size jvm_args forwarded
    cases cached <;> simp [launcher_run]
  · intro cached self_bytes payload_size jvm_args forwarded
    cases cached <;> simp [launcher_run, List.countP_cons]
  · intro payload_hash payload jvm_args forwarded
    simp [launcher_run, tailBytes, create_binary, Nat.add_sub_cancel,
      List.drop_left]

/-- C8: the progress pipeline chooses its rendering mode exactly once at
construction (from the is-a-terminal query) and never changes it; every
`start_step` increments the counter and renders the `[current/total]`
prefix with the step name in the construction-time mode; and every write it
performs — step starts, finish marks, and the final banner — goes to the
diagnostic stream (stderr), never stdout. -/
theorem pipeline_progress_contract :
    (∀ (total_steps : Nat) (stderr_is_term : Bool),
      Pipeline.new total_steps stderr_is_term =
        { total := total_steps, current := 0, is_tty := stderr_is_term }) ∧
    (∀ (p : Pipeline) (name : String),
      (p.start_step name).1 =
        { total := p.total, current := p.current + 1, is_tty := p.is_tty } ∧
      (p.start_step name).2.2 =
        .stepStart .stderr p.is_tty
          ("[" ++ toString (p.current + 1) ++ "/" ++ toString p.total ++ "]")
          name ∧
      (p.start_step name).2.1 =
        (if p.is_tty then
          .spinner
            ("[" ++ toString (p.current + 1) ++ "/" ++ toString p.total ++ "]")
            name
        else .plain)) ∧
    (∀ (p : Pipeline) (name : String),
      ((p.start_step name).2.2).stream = .stderr) ∧
    (∀ (h : StepHandle) (result : String),
      (Pipeline.finish_step h result).stream = .stderr) ∧
    (∀ (p : Pipeline) (output_path : String),
      (p.finish output_path).stream = .stderr) := by
  exact ⟨fun _ _ => rfl,
    fun p name => ⟨rfl, rfl, rfl⟩,
    fun p name => rfl,
    fun h result => rfl,
    fun p output_path => rfl⟩

/-- Writing a list of entries into the temporary location leaves the keyed
directory untouched. -/
theorem jdkExec_writeTemp (l : List String) (st : JdkCacheState) :
    (l.map JdkPopStep.writeTemp).foldl jdkStepExec st =
      { temp := st.temp ++ l, keyed := st.keyed } := by
  induction l generalizing st with
  | nil => simp
  | cons a t ih =>
    simp only [List.map_cons, List.foldl_cons, jdkStepExec, ih]
    simp [List.append_assoc]

/-- C6 counterexample: the launcher-side extraction cache is populated in
place (`src/pack/stub.rs` lines 24-28), so the crash prefix that stops
right after `tar` materialises the `runtime` entry of the payload
`["runtime", "runtime/bin/java", "app.jar"]` leaves the populated-marker
subdirectory in existence while the entry is not fully populated: the
naive existence check would succeed on an incomplete entry, contradicting
the claim for this cache. -/
theorem launcher_cache_not_crash_atomic :
    markerExists (extractExec ((launcher_populate
      ["runtime", "runtime/bin/java", "app.jar"]).take 2)) = true ∧
    fullyPopulated (extractExec ((launcher_populate
      ["runtime", "runtime/bin/java", "app.jar"]).take 2))
      ["runtime", "runtime/bin/java", "app.jar"] = false :=
  ⟨by decide, by decide⟩

/-- C6 amended: the runtime-acquisition cache (modelled from its spec
contract: temp-then-atomic-promote) shows the populated marker only on
fully populated entries, under every crash prefix of its population; a
completed launcher-side extraction also materialises exactly the payload
entries; but the launcher-side extraction cache is populated directly in
the keyed directory, and a crash prefix exists after which the marker
subdirectory is present while the entry is incomplete. -/
theorem cache_population_atomicity :
    (∀ (entries : List String) (k : Nat),
      markerExists (jdkExec ((jdk_populate entries).take k)).keyed = true →
      fullyPopulated (jdkExec ((jdk_populate entries).take k)).keyed
        entries = true) ∧
    (∀ payload_entries : List String,
      extractExec (launcher_populate payload_entries) = payload_entries) ∧
    (∃ (payload_entries : List String) (k : Nat),
      markerExists (extractExec ((launcher_populate payload_entries).take k)) =
        true ∧
      fullyPopulated (extractExec ((launcher_populate payload_entries).take k))
        payload_entries = false) := by
  refine ⟨?_, ?_, ?_⟩
  · intro entries k hmark
    by_cases hk : k ≤ entries.length
    · exfalso
      have htake : (jdk_populate entries).take k =
          (entries.take k).map JdkPopStep.writeTemp := by
        simp only [jdk_populate]
        rw [List.take_append_of_le_length (by simpa using hk), List.map_take]
      rw [htake] at hmark
      simp only [jdkExec, jdkExec_writeTemp] at hmark
      simp [markerExists] at hmark
    · have hlen : (jdk_populate entries).length ≤ k := by
        simp only [jdk_populate, List.length_append, List.length_map,
          List.length_singleton]
        omega
      rw [List.take_of_length_le hlen]
      simp only [jdk_populate, jdkExec, List.foldl_append, jdkExec_writeTemp,
        List.foldl_cons, List.foldl_nil, jdkStepExec]
      simp [fullyPopulated, List.all_eq_true]
  · intro payload_entries
    simp only [launcher_populate, extractExec, List.filterMap_cons,
      List.filterMap_map, Function.comp_def]
    exact List.filterMap_some payload_entries
  · exact ⟨["runtime", "runtime/bin/java", "app.jar"], 2, by decide, by decide⟩

/-- C6 witness: the runtime-acquisition invariant applied to a concrete
fully-executed population, discharging the marker hypothesis. -/
theorem cache_population_atomicity_witness :
    markerExists (jdkExec ((jdk_populate ["runtime", "app.jar"]).take 3)).keyed =
      true ∧
    fullyPopulated (jdkExec ((jdk_populate ["runtime", "app.jar"]).take 3)).keyed
      ["runtime", "app.jar"] = true :=
  ⟨by decide, cache_population_atomicity.1 ["runtime", "app.jar"] 3 (by decide)⟩

/-- C9: the prebuilt-archive classification is exactly "the input path's
extension equals `jar`", and this single boolean determines, together, the
stage total shown in every `[i/total]` prefix (computed up front via
`calculate_steps`) and whether the first started stage is "Using pre-built
JAR" or the start of the detect-and-build pair — so the two cannot disagree
for any input. -/
theorem run_build_jar_classification (cfg : BuildConfig) (x : ExtCalls) :
    cfg.is_jar_input = (cfg.input_ext == some "jar") ∧
    (∃ rest : List Ev,
      (run_build cfg x).1 =
        .rawLine .stderr "" ::
        .stepStart .stderr x.is_tty
          ("[" ++ toString 1 ++ "/" ++
            toString (calculate_steps cfg.is_jar_input cfg.shrink cfg.crac) ++
            "]")
          (if cfg.is_jar_input then "Using pre-built JAR"
           else "Detecting build system") :: rest) := by
  constructor
  · cases h : cfg.input_ext <;> simp [BuildConfig.is_jar_input, h]
  · cases hj : cfg.is_jar_input <;>
      simp [run_build, acquire_stage, emit, Pipeline.new, Pipeline.start_step,
        hj]

/-- Build configuration of a concrete prebuilt-jar run with the checkpoint
flag enabled. -/
def cexCfg : BuildConfig :=
  { input := "/app/app.jar", input_ext := some "jar", output := "/tmp/out",
    java_version := 21, java_version_explicit := false,
    target := .linux_x64, jvm_args := [], shrink := false,
    profile_str := "server", appcds := true, crac := true,
    compact_banner := false }

/-- Concrete external-call outcomes in which checkpoint creation succeeds
but the subsequent stat of the created checkpoint file fails. -/
def cexExt : ExtCalls :=
  { is_tty := false,
    detect_res := .ok "Maven",
    build_desc := "mvn package",
    build_res := .ok "/app/target/app.jar",
    shrink_res := .ok
      { original_size := 10, shrunk_size := 5, jar_path := "/tmp/s.jar" },
    validate_res := .ok 21,
    ensure_jdk_res := .ok "/cache/jdk21",
    tempdir_res := .ok "/tmp/xyz",
    detect_modules_res := .ok "java.base",
    create_runtime_res := .ok "/tmp/xyz/runtime",
    create_checkpoint_res := .ok "/tmp/xyz/checkpoint.tar",
    pack_res := .ok (),
    metadata_len := fun p =>
      if p = "/tmp/xyz/checkpoint.tar" then .error "stat failed"
      else .ok 4096,
    hb := fun n => toString n ++ " B",
    pct_fmt := fun _ _ => "50",
    file_name_of := fun p => p }

/-- C4 counterexample: on `cexCfg`/`cexExt` the checkpoint stage is started
and an error occurs inside it (`std::fs::metadata(&cp)?` on the created
checkpoint file, `src/main.rs` line 251), yet the run aborts with that
error: the packing stage is never started and no "skipped" notice is
emitted — an error from the checkpoint stage that is not caught locally,
contradicting the claim as stated. -/
theorem checkpoint_stage_error_aborts :
    startedStages (run_build cexCfg cexExt).1 =
      ["Using pre-built JAR", "Downloading JDK 21",
        "Analyzing module dependencies", "Creating minimal runtime (jlink)",
        "Creating CRaC checkpoint"] ∧
    (run_build cexCfg cexExt).2 = .error "stat failed" ∧
    (startedStages (run_build cexCfg cexExt).1).contains "Packing binary" =
      false ∧
    (finishTexts (run_build cexCfg cexExt).1).contains
      "skipped (stat failed)" = false :=
  ⟨by decide, rfl, by decide, by decide⟩

/-- Stage names of archive acquisition as a function of the input kind. -/
def acquiredNames (cfg : BuildConfig) (x : ExtCalls) : List String :=
  if cfg.is_jar_input then ["Using pre-built JAR"]
  else ["Detecting build system", "Building uberjar (" ++ x.build_desc ++ ")"]

/-- Stage names of the optional shrink stage. -/
def shrinkNames (cfg : BuildConfig) : List String :=
  if cfg.shrink then ["Shrinking JAR"] else []

/-- C4 amended: every fatal call site of `run_build` — build-system
detection, uberjar build, shrink, Java-version validation, JDK acquisition,
temp-directory creation, module analysis, runtime creation, packing, and the
output stat — aborts the run immediately on error, with no further stage
started and an error (non-zero) outcome; an error returned by the external
checkpoint-creation call is the exception: it is caught locally, reported
via `finish_step` as "skipped (<reason>)", and the pipeline continues to the
packing stage without checkpoint data; but a failure of the metadata read
of the created checkpoint file, inside the checkpoint stage, is fatal like
every other stage. -/
theorem run_build_failure_policy :
    (∀ (cfg : BuildConfig) (x : ExtCalls) (e : String),
      cfg.is_jar_input = false → x.detect_res = .error e →
      startedStages (run_build cfg x).1 = ["Detecting build system"] ∧
      (run_build cfg x).2 = .error e) ∧
    (∀ (cfg : BuildConfig) (x : ExtCalls) (sys e : String),
      cfg.is_jar_input = false → x.detect_res = .ok sys →
      x.build_res = .error e →
      startedStages (run_build cfg x).1 =
        ["Detecting build system",
          "Building uberjar (" ++ x.build_desc ++ ")"] ∧
      (run_build cfg x).2 = .error e) ∧
    (∀ (cfg : BuildConfig) (x : ExtCalls) (sys jar e : String),
      cfg.shrink = true → x.detect_res = .ok sys → x.build_res = .ok jar →
      x.shrink_res = .error e →
      startedStages (run_build cfg x).1 =
        acquiredNames cfg x ++ ["Shrinking JAR"] ∧
      (run_build cfg x).2 = .error e) ∧
    (∀ (cfg : BuildConfig) (x : ExtCalls) (sys jar : String)
        (r : ShrinkResult) (e : String),
      x.detect_res = .ok sys → x.build_res = .ok jar →
      x.shrink_res = .ok r → x.validate_res = .error e →
      startedStages (run_build cfg x).1 =
        acquiredNames cfg x ++ shrinkNames cfg ∧
      (run_build cfg x).2 = .error e) ∧
    (∀ (cfg : BuildConfig) (x : ExtCalls) (sys jar : String)
        (r : ShrinkResult) (jv : Nat) (e : String),
      x.detect_res = .ok sys → x.build_res = .ok jar →
      x.shrink_res = .ok r → x.validate_res = .ok jv →
      x.ensure_jdk_res = .error e →
      startedStages (run_build cfg x).1 =
        acquiredNames cfg x ++ shrinkNames cfg ++
          ["Downloading JDK " ++ toString jv] ∧
      (run_build cfg x).2 = .error e) ∧
    (∀ (cfg : BuildConfig) (x : ExtCalls) (sys jar : String)
        (r : ShrinkResult) (jv : Nat) (jdkp e : String),
      x.detect_res = .ok sys → x.build_res = .ok jar →
      x.shrink_res = .ok r → x.validate_res = .ok jv →
      x.ensure_jdk_res = .ok jdkp → x.tempdir_res = .error e →
      startedStages (run_build cfg x).1 =
        acquiredNames cfg x ++ shrinkNames cfg ++
          ["Downloading JDK " ++ toString jv,
            "Analyzing module dependencies"] ∧
      (run_build cfg x).2 = .error e) ∧
    (∀ (cfg : BuildConfig) (x : ExtCalls) (sys jar : String)
        (r : ShrinkResult) (jv : Nat) (jdkp td e : String),
      x.detect_res = .ok sys → x.build_res = .ok jar →
      x.shrink_res = .ok r → x.validate_res = .ok jv →
      x.ensure_jdk_res = .ok jdkp → x.tempdir_res = .ok td →
      x.detect_modules_res = .error e →
      startedStages (run_build cfg x).1 =
        acquiredNames cfg x ++ shrinkNames cfg ++
          ["Downloading JDK " ++ toString jv,
            "Analyzing module dependencies"] ∧
      (run_build cfg x).2 = .error e) ∧
    (∀ (cfg : BuildConfig) (x : ExtCalls) (sys jar : String)
        (r : ShrinkResult) (jv : Nat) (jdkp td m e : String),
      x.detect_res = .ok sys → x.build_res = .ok jar →
      x.shrink_res = .ok r → x.validate_res = .ok jv →
      x.ensure_jdk_res = .ok jdkp → x.tempdir_res = .ok td →
      x.detect_modules_res = .ok m → x.create_runtime_res = .error e →
      startedStages (run_build cfg x).1 =
        acquiredNames cfg x ++ shrinkNames cfg ++
          ["Downloading JDK " ++ toString jv,
            "Analyzing module dependencies",
            "Creating minimal runtime (jlink)"] ∧
      (run_build cfg x).2 = .error e) ∧
    (∀ (cfg : BuildConfig) (x : ExtCalls) (sys jar : String)
        (r : ShrinkResult) (jv : Nat) (jdkp td m rt e : String) (sz : Nat),
      cfg.crac = true → x.detect_res = .ok sys → x.build_res = .ok jar →
      x.shrink_res = .ok r → x.validate_res = .ok jv →
      x.ensure_jdk_res = .ok jdkp → x.tempdir_res = .ok td →
      x.detect_modules_res = .ok m → x.create_runtime_res = .ok rt →
      x.create_checkpoint_res = .error e → x.pack_res = .ok () →
      x.metadata_len cfg.output = .ok sz →
      startedStages (run_build cfg x).1 =
        acquiredNames cfg x ++ shrinkNames cfg ++
          ["Downloading JDK " ++ toString jv,
            "Analyzing module dependencies",
            "Creating minimal runtime (jlink)",
            "Creating CRaC checkpoint", "Packing binary"] ∧
      ("skipped (" ++ e ++ ")") ∈ finishTexts (run_build cfg x).1 ∧
      (run_build cfg x).2 = .ok ()) ∧
    (∀ (cfg : BuildConfig) (x : ExtCalls) (sys jar : String)
        (r : ShrinkResult) (jv : Nat) (jdkp td m rt cp e : String),
      cfg.crac = true → x.detect_res = .ok sys → x.build_res = .ok jar →
      x.shrink_res = .ok r → x.validate_res = .ok jv →
      x.ensure_jdk_res = .ok jdkp → x.tempdir_res = .ok td →
      x.detect_modules_res = .ok m → x.create_runtime_res = .ok rt →
      x.create_checkpoint_res = .ok cp → x.metadata_len cp = .error e →
      startedStages (run_build cfg x).1 =
        acquiredNames cfg x ++ shrinkNames cfg ++
          ["Downloading JDK " ++ toString jv,
            "Analyzing module dependencies",
            "Creating minimal runtime (jlink)",
            "Creating CRaC checkpoint"] ∧
      (run_build cfg x).2 = .error e) ∧
    (∀ (cfg : BuildConfig) (x : ExtCalls) (sys jar : String)
        (r : ShrinkResult) (jv : Nat) (jdkp td m rt e : String),
      cfg.crac = false → x.detect_res = .ok sys → x.build_res = .ok jar →
      x.shrink_res = .ok r → x.validate_res = .ok jv →
      x.ensure_jdk_res = .ok jdkp → x.tempdir_res = .ok td →
      x.detect_modules_res = .ok m → x.create_runtime_res = .ok rt →
      x.pack_res = .error e →
      startedStages (run_build cfg x).1 =
        acquiredNames cfg x ++ shrinkNames cfg ++
          ["Downloading JDK " ++ toString jv,
            "Analyzing module dependencies",
            "Creating minimal runtime (jlink)", "Packing binary"] ∧
      (run_build cfg x).2 = .error e) ∧
    (∀ (cfg : BuildConfig) (x : ExtCalls) (sys jar : String)
        (r : ShrinkResult) (jv : Nat) (jdkp td m rt e : String),
      cfg.crac = false → x.detect_res = .ok sys → x.build_res = .ok jar →
      x.shrink_res = .ok r → x.validate_res = .ok jv →
      x.ensure_jdk_res = .ok jdkp → x.tempdir_res = .ok td →
      x.detect_modules_res = .ok m → x.create_runtime_res = .ok rt →
      x.pack_res = .ok () → x.metadata_len cfg.output = .error e →
      startedStages (run_build cfg x).1 =
        acquiredNames cfg x ++ shrinkNames cfg ++
          ["Downloading JDK " ++ toString jv,
            "Analyzing module dependencies",
            "Creating minimal runtime (jlink)", "Packing binary"] ∧
      (run_build cfg x).2 = .error e) := by
  refine ⟨?_, ?_, ?_, ?_, ?_, ?_, ?_, ?_, ?_, ?_, ?_, ?_⟩
  · intro cfg x e h0 h1
    simp [run_build, acquire_stage, emit, abortWith, Pipeline.new,
      Pipeline.start_step, startedStages, h0, h1]
  · intro cfg x sys e h0 h1 h2
    simp [run_build, acquire_stage, emit, abortWith, Pipeline.new,
      Pipeline.start_step, Pipeline.finish_step, startedStages, h0, h1, h2]
  · intro cfg x sys jar e hs h1 h2 h3
    cases hj : cfg.is_jar_input <;>
      simp [run_build, acquire_stage, shrink_stage, emit, abortWith,
        Pipeline.new, Pipeline.start_step, Pipeline.finish_step,
        startedStages, acquiredNames, hj, hs, h1, h2, h3]
  · intro cfg x sys jar r e h1 h2 h3 h4
    cases hj : cfg.is_jar_input <;> cases hs : cfg.shrink <;>
      simp [run_build, acquire_stage, shrink_stage, validate_step, emit,
        abortWith, Pipeline.new, Pipeline.start_step, Pipeline.finish_step,
        startedStages, acquiredNames, shrinkNames, hj, hs, h1, h2, h3, h4]
  · intro cfg x sys jar r jv e h1 h2 h3 h4 h5
    cases hj : cfg.is_jar_input <;> cases hs : cfg.shrink <;>
      simp [run_build, acquire_stage, shrink_stage, validate_step, jdk_stage,
        emit, abortWith, Pipeline.new, Pipeline.start_step,
        Pipeline.finish_step, startedStages, acquiredNames, shrinkNames,
        hj, hs, h1, h2, h3, h4, h5]
  · intro cfg x sys jar r jv jdkp e h1 h2 h3 h4 h5 h6
    cases hj : cfg.is_jar_input <;> cases hs : cfg.shrink <;>
      simp [run_build, acquire_stage, shrink_stage, validate_step, jdk_stage,
        modules_stage, emit, abortWith, Pipeline.new, Pipeline.start_step,
        Pipeline.finish_step, startedStages, acquiredNames, shrinkNames,
        hj, hs, h1, h2, h3, h4, h5, h6]
  · intro cfg x sys jar r jv jdkp td e h1 h2 h3 h4 h5 h6 h7
    cases hj : cfg.is_jar_input <;> cases hs : cfg.shrink <;>
      simp [run_build, acquire_stage, shrink_stage, validate_step, jdk_stage,
        modules_stage, emit, abortWith, Pipeline.new, Pipeline.start_step,
        Pipeline.finish_step, startedStages, acquiredNames, shrinkNames,
        hj, hs, h1, h2, h3, h4, h5, h6, h7]
  · intro cfg x sys jar r jv jdkp td m e h1 h2 h3 h4 h5 h6 h7 h8
    cases hj : cfg.is_jar_input <;> cases hs : cfg.shrink <;>
      simp [run_build, acquire_stage, shrink_stage, validate_step, jdk_stage,
        modules_stage, runtime_stage, emit, abortWith, Pipeline.new,
        Pipeline.start_step, Pipeline.finish_step, startedStages,
        acquiredNames, shrinkNames, hj, hs, h1, h2, h3, h4, h5, h6, h7, h8]
  · intro cfg x sys jar r jv jdkp td m rt e sz hc h1 h2 h3 h4 h5 h6 h7 h8 h9
      h10 h11
    cases hj : cfg.is_jar_input <;> cases hs : cfg.shrink <;>
      simp [run_build, acquire_stage, shrink_stage, validate_step, jdk_stage,
        modules_stage, runtime_stage, crac_stage, pack_stage, emit, abortWith,
        Pipeline.new, Pipeline.start_step, Pipeline.finish_step,
        Pipeline.finish, startedStages, finishTexts, acquiredNames,
        shrinkNames, hc, hj, hs, h1, h2, h3, h4, h5, h6, h7, h8, h9, h10, h11]
  · intro cfg x sys jar r jv jdkp td m rt cp e hc h1 h2 h3 h4 h5 h6 h7 h8 h9
      h10
    cases hj : cfg.is_jar_input <;> cases hs : cfg.shrink <;>
      simp [run_build, acquire_stage, shrink_stage, validate_step, jdk_stage,
        modules_stage, runtime_stage, crac_stage, emit, abortWith,
        Pipeline.new, Pipeline.start_step, Pipeline.finish_step,
        startedStages, acquiredNames, shrinkNames, hc,
        hj, hs, h1, h2, h3, h4, h5, h6, h7, h8, h9, h10]
  · intro cfg x sys jar r jv jdkp td m rt e hc h1 h2 h3 h4 h5 h6 h7 h8 h9
    cases hj : cfg.is_jar_input <;> cases hs : cfg.shrink <;>
      simp [run_build, acquire_stage, shrink_stage, validate_step, jdk_stage,
        modules_stage, runtime_stage, crac_stage, pack_stage, emit, abortWith,
        Pipeline.new, Pipeline.start_step, Pipeline.finish_step,
        startedStages, acquiredNames, shrinkNames, hc,
        hj, hs, h1, h2, h3, h4, h5, h6, h7, h8, h9]
  · intro cfg x sys jar r jv jdkp td m rt e hc h1 h2 h3 h4 h5 h6 h7 h8 h9 h10
    cases hj : cfg.is_jar_input <;> cases hs : cfg.shrink <;>
      simp [run_build, acquire_stage, shrink_stage, validate_step, jdk_stage,
        modules_stage, runtime_stage, crac_stage, pack_stage, emit, abortWith,
        Pipeline.new, Pipeline.start_step, Pipeline.finish_step,
        startedStages, acquiredNames, shrinkNames, hc,
        hj, hs, h1, h2, h3, h4, h5, h6, h7, h8, h9, h10]

/-- External-call outcomes identical to `cexExt` except that checkpoint
creation itself fails. -/
def wcExt : ExtCalls :=
  { cexExt with create_checkpoint_res := .error "criu not found" }

/-- C4 witness: the checkpoint-skip conjunct of `run_build_failure_policy`
applied at a concrete run in which checkpoint creation fails — every
hypothesis discharged by evaluation. -/
theorem run_build_failure_policy_witness :
    startedStages (run_build cexCfg wcExt).1 =
      acquiredNames cexCfg wcExt ++ shrinkNames cexCfg ++
        ["Downloading JDK " ++ toString 21,
          "Analyzing module dependencies",
          "Creating minimal runtime (jlink)",
          "Creating CRaC checkpoint", "Packing binary"] ∧
    ("skipped (" ++ "criu not found" ++ ")") ∈
      finishTexts (run_build cexCfg wcExt).1 ∧
    (run_build cexCfg wcExt).2 = .ok () :=
  run_build_failure_policy.2.2.2.2.2.2.2.2.1 cexCfg wcExt "Maven"
    "/app/target/app.jar"
    { original_size := 10, shrunk_size := 5, jar_path := "/tmp/s.jar" }
    21 "/cache/jdk21" "/tmp/xyz" "java.base" "/tmp/xyz/runtime"
    "criu not found" 4096 rfl rfl rfl rfl rfl rfl rfl rfl rfl rfl rfl rfl
